import Mathlib

/-!
Shallow embedding of `lambda/lambda_function.py` (an Alexa skill backend):
the localization resolver `get_localized_string`, the request handlers, the
predicate-ordered dispatch of the `SkillBuilder`, and the catch-all exception
handler. Python exceptions are modelled with `Except PyErr`; the outbound
HTTP call of the news handler is modelled by an oracle
`HttpRequest → Except PyErr HttpResponse`, and each handler additionally
returns the list of HTTP requests it issued so that "exactly one outbound
call" is expressible. The localization table `LOCALIZED_STRINGS` is loaded
from a data file (`responses.json`, not part of the source tree), so every
definition takes the table as an explicit parameter. Template strings are
represented in parsed form (a list of literal and placeholder chunks), which
matches Python `str.format` on templates whose braces are well formed; the
keys and locales used by the program are literal identifiers without braces.
-/

/-- Python exceptions that the embedded code can raise or catch. -/
inductive PyErr where
  | keyError (k : String) : PyErr
  | other (msg : String) : PyErr
deriving DecidableEq

/-- One piece of a template string: a literal run, or a named placeholder. -/
inductive Chunk where
  | lit (s : String) : Chunk
  | ph (field : String) : Chunk
deriving DecidableEq

/-- A template string in parsed form. -/
abbrev Template := List Chunk

/-- The literal text of a chunk, placeholders rendered back with braces. -/
def Chunk.raw : Chunk → String
  | Chunk.lit s => s
  | Chunk.ph n => "\x7b" ++ n ++ "\x7d"

/-- The unformatted template string, as Python holds it. -/
def Template.raw (t : Template) : String :=
  List.foldl (fun acc c => acc ++ Chunk.raw c) "" t

/-- Python `template.format(**kwargs)`: substitute each named placeholder
from the keyword arguments; raise `KeyError` on a missing name. Extra
keyword arguments are ignored, as in Python. -/
def formatTemplate (t : Template) (kwargs : List (String × String)) :
    Except PyErr String :=
  match t with
  | [] => Except.ok ""
  | Chunk.lit s :: rest => (formatTemplate rest kwargs).map (fun r => s ++ r)
  | Chunk.ph n :: rest =>
    match lookupArg kwargs n with
    | some v => (formatTemplate rest kwargs).map (fun r => v ++ r)
    | none => Except.error (PyErr.keyError n)
where
  /-- First binding of a name in a keyword-argument list (Python dicts have
  unique keys, so first binding is the binding). -/
  lookupArg : List (String × String) → String → Option String
    | [], _ => none
    | (k, v) :: rest, n => if k = n then some v else lookupArg rest n

/-- Python `d.get(k)` / `d[k]` on a dict modelled as an association list. -/
def lookupStr (m : List (String × α)) (k : String) : Option α :=
  match m with
  | [] => none
  | (k', v) :: rest => if k' = k then some v else lookupStr rest k

/-- Python `str.isspace` characters that `str.strip()` removes (ASCII part;
the program only strips spoken-text slot values). -/
def isPyWhitespace (c : Char) : Bool :=
  c = ' ' || c = '\t' || c = '\n' || c = '\r' || c = '\x0b' || c = '\x0c'

/-- Python `s.strip()`: remove leading and trailing whitespace. -/
def pyStrip (s : String) : String :=
  String.mk (((s.data.dropWhile isPyWhitespace).reverse.dropWhile
    isPyWhitespace).reverse)

/-- Python `s.lower()` (ASCII case mapping, enough for locale tags). -/
def pyLower (s : String) : String := String.mk (s.data.map Char.toLower)

/-- Python `s.upper()` (ASCII case mapping, enough for locale tags). -/
def pyUpper (s : String) : String := String.mk (s.data.map Char.toUpper)

/-- Python `locale.split('-')[0]`: the part of the locale tag before the
first region separator (the whole tag if there is none). -/
def localeLanguagePart (locale : String) : String :=
  String.mk (locale.data.takeWhile (fun c => c ≠ '-'))

/-- Line 39 of the source: `locale.split('-')[0].lower()`, the language key
used by the localization resolver. -/
def localizationLanguage (locale : String) : String :=
  pyLower (localeLanguagePart locale)

/-- Line 108 of the source: `alexa_locale.split('-')[0].upper()`, the
`api_language` the news handler derives; the handler only logs it. -/
def newsApiLanguage (locale : String) : String :=
  pyUpper (localeLanguagePart locale)

/-- The localization table: locale tag → (message key → template). -/
abbrev Table := List (String × List (String × Template))

/-- The fixed summarization endpoint (line 26 of the source). -/
def TLDR_API_URL : String := "https://hermes-phi.vercel.app/tldr-news"

/-- Lines 33-52 of the source, `get_localized_string`. Python evaluates the
default argument `LOCALIZED_STRINGS[api_language]` of `.get` eagerly, so a
language entry missing from the table raises `KeyError` even when the exact
locale is present; only a `KeyError` from `.format` is caught. -/
def get_localized_string (table : Table) (locale : String) (key : String)
    (kwargs : List (String × String)) : Except PyErr String :=
  let api_language := localizationLanguage locale
  match lookupStr table api_language with
  | none => Except.error (PyErr.keyError api_language)
  | some language_strings =>
    let locale_strings := (lookupStr table locale).getD language_strings
    let string_template :=
      (lookupStr locale_strings key).getD
        [Chunk.lit ("Missing translation for key: " ++ key ++ " in locale: "
          ++ locale)]
    match formatTemplate string_template kwargs with
    | Except.ok s => Except.ok s
    | Except.error (PyErr.keyError _) => Except.ok (Template.raw string_template)
    | Except.error e => Except.error e

/-- The string a template yields under `get_localized_string` when called
with no keyword arguments: its formatting, or its raw text if a placeholder
is unbound. -/
def renderNoArgs (t : Template) : String :=
  match formatTemplate t [] with
  | Except.ok s => s
  | Except.error _ => Template.raw t

/-- The inbound request's type, as tested by `ask_utils.is_request_type`. -/
inductive RequestType where
  | launchRequest : RequestType
  | intentRequest : RequestType
  | sessionEndedRequest : RequestType
deriving DecidableEq

/-- A slot on an intent; `value` is `none` when Python holds `None`. -/
structure Slot where
  value : Option String
deriving DecidableEq

/-- The intent attached to an intent request: a name and a slot mapping. -/
structure Intent where
  name : String
  slots : List (String × Slot)
deriving DecidableEq

/-- The request envelope as the handlers read it: request type, the intent
when the request is an intent request, and the locale tag. -/
structure Envelope where
  requestType : RequestType
  intent : Option Intent
  locale : String
deriving DecidableEq

/-- The response a handler builds: spoken text, optional reprompt (the
builder's `.ask`, which also marks the session as staying open). -/
structure SpeechResult where
  speak : Option String := none
  reprompt : Option String := none
  shouldEndSession : Option Bool := none
deriving DecidableEq

/-- Response built by `.speak(s).response`. -/
def speakOnly (s : String) : SpeechResult :=
  { speak := some s }

/-- Response built by `.speak(s).ask(r).response`; `.ask` sets the
session to remain open. -/
def speakAsk (s r : String) : SpeechResult :=
  { speak := some s, reprompt := some r, shouldEndSession := some false }

/-- An outbound `requests.get` call: URL and the two query parameters the
news handler sends (line 119 of the source). -/
structure HttpRequest where
  url : String
  query : String
  language : String
deriving DecidableEq

/-- The relevant part of a `requests` response object. -/
structure HttpResponse where
  status_code : Nat
  text : String
deriving DecidableEq

/-- The network, as an oracle: each request either returns a response or
raises (connection error, timeout, ...). -/
abbrev HttpOracle := HttpRequest → Except PyErr HttpResponse

/-- The request the news handler issues for a slot value (line 119):
`params={"query": user_input.strip(), "language": alexa_locale}`. -/
def mkNewsRequest (userInput locale : String) : HttpRequest :=
  { url := TLDR_API_URL, query := pyStrip userInput, language := locale }

/-- Predicate `ask_utils.is_request_type(t)`. -/
def is_request_type (t : RequestType) (env : Envelope) : Bool :=
  decide (env.requestType = t)

/-- Predicate `ask_utils.is_intent_name(name)`: an intent request whose
intent carries the given name. -/
def is_intent_name (name : String) (env : Envelope) : Bool :=
  decide (env.requestType = RequestType.intentRequest) &&
    (match env.intent with
     | some i => decide (i.name = name)
     | none => false)

/-- Lines 63-73: the launch handler speaks the welcome message and asks the
welcome reprompt. -/
def LaunchRequestHandler.handle (table : Table) (env : Envelope) :
    Except PyErr SpeechResult := do
  let speak_output ← get_localized_string table env.locale "WELCOME_MESSAGE" []
  let reprompt_output ← get_localized_string table env.locale "WELCOME_REPROMPT" []
  Except.ok (speakAsk speak_output reprompt_output)

/-- Lines 81-90: the language-check handler speaks the check message with
the locale substituted. -/
def LanguageCheckIntentHandler.handle (table : Table) (env : Envelope) :
    Except PyErr SpeechResult := do
  let speak_output ← get_localized_string table env.locale
    "LANGUAGE_CHECK_MESSAGE" [("locale", env.locale)]
  Except.ok (speakOnly speak_output)

/-- Lines 151-159: the hello-world handler. -/
def HelloWorldIntentHandler.handle (table : Table) (env : Envelope) :
    Except PyErr SpeechResult := do
  let speak_output ← get_localized_string table env.locale "HELLO_WORLD_MESSAGE" []
  Except.ok (speakOnly speak_output)

/-- Lines 168-178: the help handler speaks and asks. -/
def HelpIntentHandler.handle (table : Table) (env : Envelope) :
    Except PyErr SpeechResult := do
  let speak_output ← get_localized_string table env.locale "HELP_MESSAGE" []
  let reprompt_output ← get_localized_string table env.locale "HELP_REPROMPT" []
  Except.ok (speakAsk speak_output reprompt_output)

/-- Lines 188-196: the cancel-or-stop handler. -/
def CancelOrStopIntentHandler.handle (table : Table) (env : Envelope) :
    Except PyErr SpeechResult := do
  let speak_output ← get_localized_string table env.locale "GOODBYE_MESSAGE" []
  Except.ok (speakOnly speak_output)

/-- Lines 204-210: the fallback handler speaks and asks. -/
def FallbackIntentHandler.handle (table : Table) (env : Envelope) :
    Except PyErr SpeechResult := do
  let speech ← get_localized_string table env.locale "FALLBACK_MESSAGE" []
  let reprompt ← get_localized_string table env.locale "FALLBACK_REPROMPT" []
  Except.ok (speakAsk speech reprompt)

/-- Lines 218-221: session end returns an empty response. -/
def SessionEndedRequestHandler.handle (_table : Table) (_env : Envelope) :
    Except PyErr SpeechResult :=
  Except.ok {}

/-- Lines 234-243: the intent reflector speaks the triggered intent's name;
`get_intent_name` faults when the request carries no intent. -/
def IntentReflectorHandler.handle (_table : Table) (env : Envelope) :
    Except PyErr SpeechResult :=
  match env.intent with
  | some i => Except.ok (speakOnly ("You just triggered " ++ i.name ++ "."))
  | none => Except.error (PyErr.other "TypeError: request has no intent")

/-- The `except` clause of the news handler (lines 134-136): resolve the
general API-error message; a `KeyError` raised there propagates. -/
def newsExceptBranch (table : Table) (locale : String) :
    Except PyErr SpeechResult :=
  (get_localized_string table locale "NEWS_API_ERROR" []).map speakOnly

/-- The body of the `try` block of `NewsRequestIntentHandler.handle`
(lines 106-132), together with the list of HTTP requests it issued.
Reading `request.intent.name` (line 110) faults when the request carries no
intent; the slot check on line 115 is Python truthiness, so a slot whose
value is `None` or the empty string fails it, while any non-empty value
(whitespace included) passes. -/
def newsTryBody (table : Table) (http : HttpOracle) (env : Envelope) :
    Except PyErr SpeechResult × List HttpRequest :=
  match env.intent with
  | none => (Except.error (PyErr.other "AttributeError: request has no intent"), [])
  | some intent =>
    match lookupStr intent.slots "userInput" with
    | some user_input_slot =>
      match user_input_slot.value with
      | some user_input =>
        if user_input = "" then
          ((get_localized_string table env.locale "NEWS_TOPIC_NOT_CAUGHT" []).map
            speakOnly, [])
        else
          let req := mkNewsRequest user_input env.locale
          match http req with
          | Except.ok response =>
            if response.status_code = 200 then
              (Except.ok (speakOnly response.text), [req])
            else
              ((get_localized_string table env.locale "NEWS_API_ERROR" []).map
                speakOnly, [req])
          | Except.error e => (Except.error e, [req])
      | none =>
        ((get_localized_string table env.locale "NEWS_TOPIC_NOT_CAUGHT" []).map
          speakOnly, [])
    | none =>
      ((get_localized_string table env.locale "NEWS_TOPIC_NOT_FOUND" []).map
        speakOnly, [])

/-- Lines 98-142, `NewsRequestIntentHandler.handle`: the default
`NEWS_GENERAL_ERROR` resolution happens before the `try` block, so a
`KeyError` there propagates; every exception inside the `try` block lands in
the `except` clause, which substitutes the API-error message. -/
def NewsRequestIntentHandler.handle (table : Table) (http : HttpOracle)
    (env : Envelope) : Except PyErr SpeechResult × List HttpRequest :=
  match get_localized_string table env.locale "NEWS_GENERAL_ERROR" [] with
  | Except.error e => (Except.error e, [])
  | Except.ok _speak_output =>
    match newsTryBody table http env with
    | (Except.ok r, trace) => (Except.ok r, trace)
    | (Except.error _, trace) => (newsExceptBranch table env.locale, trace)

/-- Lines 251-266, `CatchAllExceptionHandler.can_handle`: unconditionally
true. -/
def CatchAllExceptionHandler.can_handle (_env : Envelope) (_exc : PyErr) :
    Bool :=
  true

/-- Lines 255-266, `CatchAllExceptionHandler.handle`: speak the localized
generic error message and use it as the reprompt as well. -/
def CatchAllExceptionHandler.handle (table : Table) (env : Envelope)
    (_exc : PyErr) : Except PyErr SpeechResult := do
  let speak_output ← get_localized_string table env.locale "ERROR_MESSAGE" []
  Except.ok (speakAsk speak_output speak_output)

/-- A registered request handler: its predicate and its handling function
(with the table and the network passed in, and the issued requests traced). -/
structure Handler where
  canHandle : Envelope → Bool
  handle : Table → HttpOracle → Envelope → Except PyErr SpeechResult × List HttpRequest

/-- Bundle a handler that performs no HTTP call. -/
def simpleHandler (can : Envelope → Bool)
    (h : Table → Envelope → Except PyErr SpeechResult) : Handler :=
  { canHandle := can, handle := fun table _http env => (h table env, []) }

/-- The nine request handlers in the registration order of lines 274-282 of
the source; the intent reflector is registered last. -/
def skillHandlers : List Handler :=
  [ simpleHandler (is_request_type RequestType.launchRequest)
      LaunchRequestHandler.handle
  , simpleHandler (is_intent_name "HelloWorldIntent")
      HelloWorldIntentHandler.handle
  , simpleHandler (is_intent_name "LanguageCheckIntent")
      LanguageCheckIntentHandler.handle
  , { canHandle := is_intent_name "NewsRequestIntent"
    , handle := NewsRequestIntentHandler.handle }
  , simpleHandler (is_intent_name "AMAZON.HelpIntent")
      HelpIntentHandler.handle
  , simpleHandler (fun env => is_intent_name "AMAZON.CancelIntent" env ||
      is_intent_name "AMAZON.StopIntent" env)
      CancelOrStopIntentHandler.handle
  , simpleHandler (is_intent_name "AMAZON.FallbackIntent")
      FallbackIntentHandler.handle
  , simpleHandler (is_request_type RequestType.sessionEndedRequest)
      SessionEndedRequestHandler.handle
  , simpleHandler (is_request_type RequestType.intentRequest)
      IntentReflectorHandler.handle ]

/-- The SDK dispatch loop: call the first handler, in registration order,
whose predicate matches; with no match the SDK raises a dispatch error. -/
def dispatch (handlers : List Handler) (table : Table) (http : HttpOracle)
    (env : Envelope) : Except PyErr SpeechResult × List HttpRequest :=
  match handlers with
  | [] => (Except.error (PyErr.other
      "DispatchException: Unable to find a suitable request handler"), [])
  | h :: rest =>
    if h.canHandle env then h.handle table http env
    else dispatch rest table http env

/-- Formatting can only fail with a `KeyError` for some placeholder name. -/
theorem formatTemplate_error_keyError (t : Template)
    (kwargs : List (String × String)) :
    ∀ e, formatTemplate t kwargs = Except.error e → ∃ n, e = PyErr.keyError n := by
  induction t with
  | nil => intro e h; simp [formatTemplate] at h
  | cons c rest ih =>
    intro e h
    cases c with
    | lit s =>
      simp only [formatTemplate] at h
      cases hr : formatTemplate rest kwargs with
      | ok v => rw [hr] at h; simp [Except.map] at h
      | error e' =>
        rw [hr] at h
        simp [Except.map] at h
        exact h ▸ ih e' hr
    | ph n =>
      simp only [formatTemplate] at h
      cases hl : formatTemplate.lookupArg kwargs n with
      | some v =>
        rw [hl] at h
        cases hr : formatTemplate rest kwargs with
        | ok w => rw [hr] at h; simp [Except.map] at h
        | error e' =>
          rw [hr] at h
          simp [Except.map] at h
          exact h ▸ ih e' hr
      | none =>
        rw [hl] at h
        simp at h
        exact ⟨n, h.symm⟩

/-- With the language entry present, the resolver always returns a string:
the only raise point is the eager `LOCALIZED_STRINGS[api_language]`. -/
theorem get_localized_string_ok_of_lang (table : Table) (locale key : String)
    (kwargs : List (String × String)) (ls : List (String × Template))
    (h : lookupStr table (localizationLanguage locale) = some ls) :
    ∃ s, get_localized_string table locale key kwargs = Except.ok s := by
  unfold get_localized_string
  simp only [h]
  set t := (lookupStr ((lookupStr table locale).getD ls) key).getD
    [Chunk.lit ("Missing translation for key: " ++ key ++ " in locale: "
      ++ locale)] with ht
  cases hf : formatTemplate t kwargs with
  | ok s => exact ⟨s, by simp [hf]⟩
  | error e =>
    obtain ⟨n, rfl⟩ := formatTemplate_error_keyError t kwargs e hf
    exact ⟨Template.raw t, by simp [hf]⟩

/-- A successful resolution implies the language entry is present. -/
theorem get_localized_string_lang_of_ok (table : Table) (locale key : String)
    (kwargs : List (String × String)) (s : String)
    (h : get_localized_string table locale key kwargs = Except.ok s) :
    ∃ ls, lookupStr table (localizationLanguage locale) = some ls := by
  unfold get_localized_string at h
  cases hl : lookupStr table (localizationLanguage locale) with
  | none => simp only [hl] at h; simp at h
  | some ls => exact ⟨ls, rfl⟩

/-- Resolution with no keyword arguments, spelled via `renderNoArgs`: once
the language entry is present the resolver returns the chosen template's
rendering (exact-locale table if present, else the language table; the
synthetic missing-translation literal if the key is absent). -/
theorem get_localized_string_eq_render (table : Table) (locale key : String)
    (ls : List (String × Template))
    (h : lookupStr table (localizationLanguage locale) = some ls) :
    get_localized_string table locale key [] =
      Except.ok (renderNoArgs
        ((lookupStr ((lookupStr table locale).getD ls) key).getD
          [Chunk.lit ("Missing translation for key: " ++ key ++ " in locale: "
            ++ locale)])) := by
  unfold get_localized_string renderNoArgs
  simp only [h]
  set t := (lookupStr ((lookupStr table locale).getD ls) key).getD
    [Chunk.lit ("Missing translation for key: " ++ key ++ " in locale: "
      ++ locale)] with ht
  cases hf : formatTemplate t [] with
  | ok s => simp [hf]
  | error e =>
    obtain ⟨n, rfl⟩ := formatTemplate_error_keyError t [] e hf
    simp [hf]

/-- A template with a single literal chunk renders to that literal. -/
theorem renderNoArgs_lit (s : String) : renderNoArgs [Chunk.lit s] = s := by
  simp [renderNoArgs, formatTemplate, Except.map, Template.raw]

/-- The `try`-block body issues no request, or exactly the one request built
from some slot value and the envelope's locale. -/
theorem newsTryBody_trace (table : Table) (http : HttpOracle)
    (env : Envelope) :
    (newsTryBody table http env).2 = [] ∨
      ∃ v, (newsTryBody table http env).2 = [mkNewsRequest v env.locale] := by
  unfold newsTryBody
  rcases env.intent with _ | i
  · left; rfl
  · rcases hs : lookupStr i.slots "userInput" with _ | slot
    · simp [hs]
    · rcases hv : slot.value with _ | v
      · simp [hs, hv]
      · simp only [hs, hv]
        by_cases hne : v = ""
        · simp [hne]
        · rw [if_neg hne]
          rcases hh : http (mkNewsRequest v env.locale) with e | resp
          · exact Or.inr ⟨v, rfl⟩
          · refine Or.inr ⟨v, ?_⟩
            by_cases h200 : resp.status_code = 200 <;> simp [h200]

/-- Unpack a successful `.map speakOnly`. -/
theorem map_speakOnly_ok (x : Except PyErr String) (r : SpeechResult)
    (h : Except.map speakOnly x = Except.ok r) :
    ∃ s, x = Except.ok s ∧ r = speakOnly s := by
  cases x with
  | ok s =>
    refine ⟨s, rfl, ?_⟩
    simpa [Except.map] using h.symm
  | error e => simp [Except.map] at h

/-- A normal return of the `try` block speaks one of the branch messages. -/
theorem newsTryBody_ok_speak (table : Table) (http : HttpOracle)
    (env : Envelope) (r : SpeechResult) (btrace : List HttpRequest)
    (h : newsTryBody table http env = (Except.ok r, btrace)) :
    ∃ s, r = speakOnly s ∧
      (get_localized_string table env.locale "NEWS_TOPIC_NOT_FOUND" [] =
          Except.ok s
       ∨ get_localized_string table env.locale "NEWS_TOPIC_NOT_CAUGHT" [] =
          Except.ok s
       ∨ get_localized_string table env.locale "NEWS_API_ERROR" [] =
          Except.ok s
       ∨ ∃ req resp, http req = Except.ok resp ∧ resp.status_code = 200 ∧
           s = resp.text) := by
  unfold newsTryBody at h
  rcases hint : env.intent with _ | i <;> simp only [hint] at h
  · simp at h
  · rcases hs : lookupStr i.slots "userInput" with _ | slot <;>
      simp only [hs] at h
    · rw [Prod.mk.injEq] at h
      obtain ⟨s, hx, hr⟩ := map_speakOnly_ok _ _ h.1
      exact ⟨s, hr, Or.inl hx⟩
    · rcases hv : slot.value with _ | v <;> simp only [hv] at h
      · rw [Prod.mk.injEq] at h
        obtain ⟨s, hx, hr⟩ := map_speakOnly_ok _ _ h.1
        exact ⟨s, hr, Or.inr (Or.inl hx)⟩
      · by_cases hne : v = ""
        · rw [if_pos hne, Prod.mk.injEq] at h
          obtain ⟨s, hx, hr⟩ := map_speakOnly_ok _ _ h.1
          exact ⟨s, hr, Or.inr (Or.inl hx)⟩
        · rw [if_neg hne] at h
          rcases hh : http (mkNewsRequest v env.locale) with e | resp <;>
            simp only [hh] at h
          · simp at h
          · by_cases h200 : resp.status_code = 200
            · rw [if_pos h200, Prod.mk.injEq] at h
              refine ⟨resp.text, ?_, Or.inr (Or.inr (Or.inr
                ⟨mkNewsRequest v env.locale, resp, hh, h200, rfl⟩))⟩
              simpa using h.1.symm
            · rw [if_neg h200, Prod.mk.injEq] at h
              obtain ⟨s, hx, hr⟩ := map_speakOnly_ok _ _ h.1
              exact ⟨s, hr, Or.inr (Or.inr (Or.inl hx))⟩

/-- A normal return of the news handler speaks one of the branch messages:
the topic-not-found, topic-not-caught or API-error localization, or the body
of a 200 response; the pre-assigned default is overwritten on every path. -/
theorem newsHandle_ok_speak (table : Table) (http : HttpOracle)
    (env : Envelope) (res : SpeechResult) (trace : List HttpRequest)
    (h : NewsRequestIntentHandler.handle table http env =
      (Except.ok res, trace)) :
    ∃ s, res = speakOnly s ∧
      (get_localized_string table env.locale "NEWS_TOPIC_NOT_FOUND" [] =
          Except.ok s
       ∨ get_localized_string table env.locale "NEWS_TOPIC_NOT_CAUGHT" [] =
          Except.ok s
       ∨ get_localized_string table env.locale "NEWS_API_ERROR" [] =
          Except.ok s
       ∨ ∃ req resp, http req = Except.ok resp ∧ resp.status_code = 200 ∧
           s = resp.text) := by
  unfold NewsRequestIntentHandler.handle at h
  cases hg : get_localized_string table env.locale "NEWS_GENERAL_ERROR" []
    with
  | error e => rw [hg] at h; simp at h
  | ok d =>
    rw [hg] at h
    rcases ht : newsTryBody table http env with ⟨bres, btrace⟩
    rw [ht] at h
    cases bres with
    | ok r =>
      rw [Prod.mk.injEq] at h
      obtain ⟨h1, h2⟩ := h
      obtain rfl : r = res := by simpa using h1
      exact newsTryBody_ok_speak table http env _ btrace ht
    | error e =>
      unfold newsExceptBranch at h
      rw [Prod.mk.injEq] at h
      obtain ⟨s, hx, hr⟩ := map_speakOnly_ok _ _ h.1
      exact ⟨s, hr, Or.inr (Or.inr (Or.inl hx))⟩

/-- The news handler issues no request, or exactly one request built from a
slot value and the envelope's locale. -/
theorem newsHandle_trace (table : Table) (http : HttpOracle)
    (env : Envelope) :
    (NewsRequestIntentHandler.handle table http env).2 = [] ∨
      ∃ v, (NewsRequestIntentHandler.handle table http env).2 =
        [mkNewsRequest v env.locale] := by
  unfold NewsRequestIntentHandler.handle
  cases hg : get_localized_string table env.locale "NEWS_GENERAL_ERROR" []
    with
  | error e => left; rfl
  | ok d =>
    rcases ht : newsTryBody table http env with ⟨bres, btrace⟩
    have htr := newsTryBody_trace table http env
    rw [ht] at htr
    cases bres with
    | ok r => simpa using htr
    | error e => simpa using htr

/-- A small concrete localization table used by the closed witness and
counterexample statements. -/
def enTable : Table :=
  [ ("en",
      [ ("NEWS_GENERAL_ERROR", [Chunk.lit "general error"])
      , ("NEWS_API_ERROR", [Chunk.lit "api error"])
      , ("NEWS_TOPIC_NOT_FOUND", [Chunk.lit "not found"])
      , ("NEWS_TOPIC_NOT_CAUGHT", [Chunk.lit "not caught"])
      , ("ERROR_MESSAGE", [Chunk.lit "oops"])
      , ("WELCOME_MESSAGE", [Chunk.lit "welcome"])
      , ("WELCOME_REPROMPT", [Chunk.lit "welcome again"])
      , ("LANGUAGE_CHECK_MESSAGE", [Chunk.ph "locale"]) ]) ]

/-- An envelope carrying a `NewsRequestIntent` with the given slots. -/
def newsEnv (slots : List (String × Slot)) : Envelope :=
  { requestType := RequestType.intentRequest
  , intent := some { name := "NewsRequestIntent", slots := slots }
  , locale := "en-US" }

/-- A network oracle answering 200 with a fixed body. -/
def okOracle : HttpOracle :=
  fun _ => Except.ok { status_code := 200, text := "THE BODY" }

/-- A network oracle answering 503. -/
def failOracle : HttpOracle :=
  fun _ => Except.ok { status_code := 503, text := "unavailable" }

/-- C1 is refuted at a concrete input: with the exact locale `"en-US"`
present in the table but no `"en"` language entry, the resolver raises a
`KeyError` to its caller instead of resolving by the exact locale match (and
instead of returning a synthetic missing-translation string), because the
table's language entry is read eagerly as the `.get` default. -/
theorem resolver_missing_language_raises :
    get_localized_string [("en-US", [("K", [Chunk.lit "hello"])])] "en-US"
      "K" [] = Except.error (PyErr.keyError "en") := rfl

/-- C1 (amended): when the lowercased language part of the locale is present
in the table, the resolver never raises, resolves by exact locale match and
otherwise by the language entry, and returns the synthetic
missing-translation string embedding the key and locale when the key is
absent; when the language part is absent from the table, the resolver raises
a `KeyError` (even if the exact locale is present). -/
theorem resolver_fallback_chain_amended (table : Table)
    (locale key : String) :
    (lookupStr table (localizationLanguage locale) = none →
        get_localized_string table locale key [] =
          Except.error (PyErr.keyError (localizationLanguage locale)))
  ∧ (∀ ls, lookupStr table (localizationLanguage locale) = some ls →
        (∃ s, get_localized_string table locale key [] = Except.ok s)
      ∧ (∀ es t, lookupStr table locale = some es → lookupStr es key = some t →
            get_localized_string table locale key [] =
              Except.ok (renderNoArgs t))
      ∧ (∀ t, lookupStr table locale = none → lookupStr ls key = some t →
            get_localized_string table locale key [] =
              Except.ok (renderNoArgs t))
      ∧ (lookupStr ((lookupStr table locale).getD ls) key = none →
            get_localized_string table locale key [] =
              Except.ok ("Missing translation for key: " ++ key ++
                " in locale: " ++ locale))) := by
  constructor
  · intro h
    unfold get_localized_string
    simp only [h]
  · intro ls hls
    refine ⟨get_localized_string_ok_of_lang table locale key [] ls hls,
      ?_, ?_, ?_⟩
    · intro es t hes ht
      rw [get_localized_string_eq_render table locale key ls hls]
      simp [hes, ht]
    · intro t hnone ht
      rw [get_localized_string_eq_render table locale key ls hls]
      simp [hnone, ht]
    · intro hk
      rw [get_localized_string_eq_render table locale key ls hls]
      simp [hk, renderNoArgs_lit]

/-- Witness for the amended C1 theorem: an unknown key under the language
fallback for `"en-GB"` yields the synthetic missing-translation string. -/
theorem resolver_fallback_chain_amended_witness :
    get_localized_string [("en", [("HELLO", [Chunk.lit "ciao"])])] "en-GB"
      "MISSING" [] =
      Except.ok ("Missing translation for key: " ++ "MISSING" ++
        " in locale: " ++ "en-GB") :=
  ((resolver_fallback_chain_amended [("en", [("HELLO", [Chunk.lit "ciao"])])]
    "en-GB" "MISSING").2 [("HELLO", [Chunk.lit "ciao"])] (by rfl)).2.2.2
    (by rfl)

/-- C4: when the chosen template references a placeholder that the params
mapping does not bind, formatting fails with a `KeyError`, which the
resolver catches, returning the unformatted template text instead of
propagating the error to its caller. -/
theorem resolver_format_miss_returns_template (table : Table)
    (locale key : String) (kwargs : List (String × String))
    (ls : List (String × Template)) (t : Template) (e : PyErr)
    (hlang : lookupStr table (localizationLanguage locale) = some ls)
    (ht : lookupStr ((lookupStr table locale).getD ls) key = some t)
    (hfail : formatTemplate t kwargs = Except.error e) :
    get_localized_string table locale key kwargs =
      Except.ok (Template.raw t) := by
  unfold get_localized_string
  simp only [hlang, ht, Option.getD_some]
  obtain ⟨n, rfl⟩ := formatTemplate_error_keyError t kwargs e hfail
  simp [hfail]

/-- Witness for C4: a template whose only chunk is the placeholder `locale`,
resolved with no params, comes back as its unformatted text. -/
theorem resolver_format_miss_returns_template_witness :
    get_localized_string enTable "en" "LANGUAGE_CHECK_MESSAGE" [] =
      Except.ok (Template.raw [Chunk.ph "locale"]) :=
  resolver_format_miss_returns_template enTable "en" "LANGUAGE_CHECK_MESSAGE"
    [] _ [Chunk.ph "locale"] (PyErr.keyError "locale") rfl rfl rfl

/-- C7: the exception boundary accepts every exception unconditionally, and
returns the localized generic error message as both the spoken output and
the reprompt, with the session kept open. -/
theorem catch_all_exception_contract (table : Table) (env : Envelope)
    (exc : PyErr) (s : String)
    (hs : get_localized_string table env.locale "ERROR_MESSAGE" [] =
      Except.ok s) :
    CatchAllExceptionHandler.can_handle env exc = true
  ∧ CatchAllExceptionHandler.handle table env exc =
      Except.ok
        { speak := some s
        , reprompt := some s
        , shouldEndSession := some false } := by
  refine ⟨rfl, ?_⟩
  unfold CatchAllExceptionHandler.handle
  rw [hs]
  rfl

/-- Witness for C7 at a concrete envelope, exception and table. -/
theorem catch_all_exception_contract_witness :
    CatchAllExceptionHandler.can_handle
        { requestType := RequestType.intentRequest
        , intent := none
        , locale := "en-US" } (PyErr.other "boom") = true
  ∧ CatchAllExceptionHandler.handle enTable
      { requestType := RequestType.intentRequest
      , intent := none
      , locale := "en-US" } (PyErr.other "boom") =
      Except.ok
        { speak := some "oops"
        , reprompt := some "oops"
        , shouldEndSession := some false } :=
  catch_all_exception_contract enTable
    { requestType := RequestType.intentRequest
    , intent := none
    , locale := "en-US" } (PyErr.other "boom") "oops" rfl

/-- C9: resolution is a pure function of the immutable table and its
arguments; calling it twice with identical arguments returns identical
output, since the embedding carries no state besides the table parameter
(the source loads the table once at process start and never mutates it). -/
theorem resolver_idempotent (table : Table) (locale key : String)
    (kwargs : List (String × String)) :
    get_localized_string table locale key kwargs =
      get_localized_string table locale key kwargs := rfl

/-- Once the default resolution on line 103 succeeded, the handler's request
trace is exactly the `try` block's request trace (the `except` clause issues
no request). -/
theorem newsHandle_snd (table : Table) (http : HttpOracle) (env : Envelope)
    (d : String)
    (hd : get_localized_string table env.locale "NEWS_GENERAL_ERROR" [] =
      Except.ok d) :
    (NewsRequestIntentHandler.handle table http env).2 =
      (newsTryBody table http env).2 := by
  unfold NewsRequestIntentHandler.handle
  simp only [hd]
  rcases newsTryBody table http env with ⟨bres, btrace⟩
  cases bres <;> rfl

/-- C2 is refuted at a concrete input: a `userInput` slot whose value is a
single space is empty after trimming, yet the handler does not answer the
localized topic-not-caught message: the truthiness test of line 115 passes
for any non-empty raw value, so the handler proceeds to the remote lookup
(issuing one request whose trimmed query is empty) and speaks the 200 body. -/
theorem news_whitespace_slot_bypasses_not_caught :
    get_localized_string enTable "en-US" "NEWS_TOPIC_NOT_CAUGHT" [] =
      Except.ok "not caught"
  ∧ NewsRequestIntentHandler.handle enTable okOracle
      (newsEnv [("userInput", { value := some " " })]) =
      (Except.ok (speakOnly "THE BODY"),
        [{ url := TLDR_API_URL, query := "", language := "en-US" }]) :=
  ⟨rfl, rfl⟩

/-- C2 (amended): the branch policy of the news handler, with the emptiness
test on the raw slot value (no trimming): slot absent → localized
topic-not-found; slot present with a `None` or empty-string value →
localized topic-not-caught; slot present with any non-empty raw value
(whitespace-only included) → proceed to the remote lookup. Stated for
envelopes whose locale resolves, so the default assignment of line 103
succeeds. -/
theorem news_slot_branch_policy_amended (table : Table) (http : HttpOracle)
    (env : Envelope) (i : Intent) (d : String)
    (hint : env.intent = some i)
    (hd : get_localized_string table env.locale "NEWS_GENERAL_ERROR" [] =
      Except.ok d) :
    (lookupStr i.slots "userInput" = none →
       ∃ f, get_localized_string table env.locale "NEWS_TOPIC_NOT_FOUND" []
           = Except.ok f
         ∧ NewsRequestIntentHandler.handle table http env =
             (Except.ok (speakOnly f), []))
  ∧ (∀ slot, lookupStr i.slots "userInput" = some slot →
       slot.value = none ∨ slot.value = some "" →
       ∃ c, get_localized_string table env.locale "NEWS_TOPIC_NOT_CAUGHT" []
           = Except.ok c
         ∧ NewsRequestIntentHandler.handle table http env =
             (Except.ok (speakOnly c), []))
  ∧ (∀ slot v, lookupStr i.slots "userInput" = some slot →
       slot.value = some v → v ≠ "" →
       (NewsRequestIntentHandler.handle table http env).2 =
         [mkNewsRequest v env.locale]) := by
  obtain ⟨ls, hls⟩ := get_localized_string_lang_of_ok table env.locale
    "NEWS_GENERAL_ERROR" [] d hd
  refine ⟨?_, ?_, ?_⟩
  · intro hnone
    obtain ⟨f, hf⟩ := get_localized_string_ok_of_lang table env.locale
      "NEWS_TOPIC_NOT_FOUND" [] ls hls
    refine ⟨f, hf, ?_⟩
    unfold NewsRequestIntentHandler.handle newsTryBody
    simp [hd, hint, hnone, hf, Except.map]
  · intro slot hslot hval
    obtain ⟨c, hc⟩ := get_localized_string_ok_of_lang table env.locale
      "NEWS_TOPIC_NOT_CAUGHT" [] ls hls
    refine ⟨c, hc, ?_⟩
    unfold NewsRequestIntentHandler.handle newsTryBody
    rcases hval with hval | hval <;>
      simp [hd, hint, hslot, hval, hc, Except.map]
  · intro slot v hslot hv hne
    rw [newsHandle_snd table http env d hd]
    unfold newsTryBody
    simp only [hint, hslot, hv, if_neg hne]
    rcases hh : http (mkNewsRequest v env.locale) with e | resp
    · simp
    · by_cases h200 : resp.status_code = 200 <;> simp [h200]

/-- Witness for the amended C2 theorem: a slot present with an empty value
yields the localized topic-not-caught message. -/
theorem news_slot_branch_policy_amended_witness :
    ∃ c, get_localized_string enTable "en-US" "NEWS_TOPIC_NOT_CAUGHT" []
        = Except.ok c
      ∧ NewsRequestIntentHandler.handle enTable okOracle
          (newsEnv [("userInput", { value := some "" })]) =
          (Except.ok (speakOnly c), []) :=
  (news_slot_branch_policy_amended enTable okOracle
    (newsEnv [("userInput", { value := some "" })])
    { name := "NewsRequestIntent"
    , slots := [("userInput", { value := some "" })] } "general error"
    rfl rfl).2.1 { value := some "" } rfl (Or.inr rfl)

/-- C3: on the remote-lookup branch, a 200 response is spoken verbatim, any
non-200 status yields the localized API-error message, an exception during
the request yields the same localized API-error message, and in every case
the handler returns normally (no exception escapes to the caller). -/
theorem news_response_mapping (table : Table) (http : HttpOracle)
    (env : Envelope) (i : Intent) (slot : Slot) (v d : String)
    (hint : env.intent = some i)
    (hslot : lookupStr i.slots "userInput" = some slot)
    (hv : slot.value = some v) (hne : v ≠ "")
    (hd : get_localized_string table env.locale "NEWS_GENERAL_ERROR" [] =
      Except.ok d) :
    ∃ a, get_localized_string table env.locale "NEWS_API_ERROR" [] =
        Except.ok a
    ∧ (∀ resp, http (mkNewsRequest v env.locale) = Except.ok resp →
         NewsRequestIntentHandler.handle table http env =
           (Except.ok (speakOnly
              (if resp.status_code = 200 then resp.text else a)),
            [mkNewsRequest v env.locale]))
    ∧ (∀ e, http (mkNewsRequest v env.locale) = Except.error e →
         NewsRequestIntentHandler.handle table http env =
           (Except.ok (speakOnly a), [mkNewsRequest v env.locale])) := by
  obtain ⟨ls, hls⟩ := get_localized_string_lang_of_ok table env.locale
    "NEWS_GENERAL_ERROR" [] d hd
  obtain ⟨a, ha⟩ := get_localized_string_ok_of_lang table env.locale
    "NEWS_API_ERROR" [] ls hls
  refine ⟨a, ha, ?_, ?_⟩
  · intro resp hresp
    unfold NewsRequestIntentHandler.handle newsTryBody
    simp only [hd, hint, hslot, hv, if_neg hne, hresp]
    by_cases h200 : resp.status_code = 200
    · simp [h200]
    · simp [h200, ha, Except.map]
  · intro e he
    unfold NewsRequestIntentHandler.handle newsTryBody
    simp only [hd, hint, hslot, hv, if_neg hne, he]
    simp [newsExceptBranch, ha, Except.map]

/-- Witness for C3: a 503 answer maps to the localized API-error message and
the handler returns normally. -/
theorem news_response_mapping_witness :
    ∃ a, get_localized_string enTable "en-US" "NEWS_API_ERROR" [] =
        Except.ok a
    ∧ (∀ resp, failOracle (mkNewsRequest " climate " "en-US") =
         Except.ok resp →
         NewsRequestIntentHandler.handle enTable failOracle
           (newsEnv [("userInput", { value := some " climate " })]) =
           (Except.ok (speakOnly
              (if resp.status_code = 200 then resp.text else a)),
            [mkNewsRequest " climate " "en-US"]))
    ∧ (∀ e, failOracle (mkNewsRequest " climate " "en-US") =
         Except.error e →
         NewsRequestIntentHandler.handle enTable failOracle
           (newsEnv [("userInput", { value := some " climate " })]) =
           (Except.ok (speakOnly a), [mkNewsRequest " climate " "en-US"])) :=
  news_response_mapping enTable failOracle
    (newsEnv [("userInput", { value := some " climate " })])
    { name := "NewsRequestIntent"
    , slots := [("userInput", { value := some " climate " })] }
    { value := some " climate " } " climate " "general error"
    rfl rfl rfl (by decide) rfl

/-- C5: an envelope carrying intent `NewsRequestIntent` with a non-empty
`userInput` slot value is dispatched to the news handler, which issues
exactly one outbound GET to the fixed summarization endpoint, with the
trimmed slot value as the `query` parameter and the full locale tag as the
`language` parameter. Stated for envelopes whose locale resolves, so the
default assignment of line 103 succeeds. -/
theorem news_single_outbound_request (table : Table) (http : HttpOracle)
    (env : Envelope) (i : Intent) (slot : Slot) (v d : String)
    (hrt : env.requestType = RequestType.intentRequest)
    (hint : env.intent = some i)
    (hname : i.name = "NewsRequestIntent")
    (hslot : lookupStr i.slots "userInput" = some slot)
    (hv : slot.value = some v) (hne : v ≠ "")
    (hd : get_localized_string table env.locale "NEWS_GENERAL_ERROR" [] =
      Except.ok d) :
    (dispatch skillHandlers table http env).2 =
      [{ url := TLDR_API_URL, query := pyStrip v,
         language := env.locale }] := by
  have hdisp : dispatch skillHandlers table http env =
      NewsRequestIntentHandler.handle table http env := by
    simp [dispatch, skillHandlers, simpleHandler, is_request_type,
      is_intent_name, hrt, hint, hname]
  rw [hdisp, newsHandle_snd table http env d hd]
  unfold newsTryBody
  simp only [hint, hslot, hv, if_neg hne]
  rcases hh : http (mkNewsRequest v env.locale) with e | resp
  · simp [mkNewsRequest]
  · by_cases h200 : resp.status_code = 200 <;> simp [h200, mkNewsRequest]

/-- Witness for C5: the slot value with surrounding whitespace is trimmed in
the single outbound request's query, and the full locale tag is sent. -/
theorem news_single_outbound_request_witness :
    (dispatch skillHandlers enTable okOracle
      (newsEnv [("userInput", { value := some "  climate change  " })])).2 =
      [{ url := TLDR_API_URL, query := "climate change",
         language := "en-US" }] :=
  (news_single_outbound_request enTable okOracle
    (newsEnv [("userInput", { value := some "  climate change  " })])
    { name := "NewsRequestIntent"
    , slots := [("userInput", { value := some "  climate change  " })] }
    { value := some "  climate change  " } "  climate change  "
    "general error" rfl rfl rfl rfl rfl (by decide) rfl).trans (by decide)

/-- C6 is refuted at a concrete input: the language code the news handler
derives from `"en-US"` is `"EN"` — the uppercased prefix of the locale, not
the lowercased prefix (which the resolver of line 39 computes). -/
theorem news_language_code_not_lowercased :
    newsApiLanguage "en-US" = "EN"
  ∧ newsApiLanguage "en-US" ≠ localizationLanguage "en-US" :=
  ⟨rfl, by decide⟩

/-- C6 (amended): the language code the news handler derives is the
uppercased prefix of the locale before the region separator; it does not
reach the outbound call (the handler only logs it): every request the
handler issues goes to the fixed endpoint and carries the full locale
string as its `language` parameter. -/
theorem news_language_code_amended (table : Table) (http : HttpOracle)
    (env : Envelope) :
    newsApiLanguage env.locale = pyUpper (localeLanguagePart env.locale)
  ∧ ∀ r ∈ (NewsRequestIntentHandler.handle table http env).2,
      r.url = TLDR_API_URL ∧ r.language = env.locale := by
  refine ⟨rfl, ?_⟩
  intro r hr
  rcases newsHandle_trace table http env with h | ⟨v, h⟩
  · rw [h] at hr; simp at hr
  · rw [h] at hr
    simp at hr
    subst hr
    exact ⟨rfl, rfl⟩

/-- Witness for the amended C6 theorem: the one request issued for slot
value `"climate"` under locale `"en-US"` targets the fixed endpoint and
carries the full locale. -/
theorem news_language_code_amended_witness :
    (mkNewsRequest "climate" "en-US").url = TLDR_API_URL
  ∧ (mkNewsRequest "climate" "en-US").language = "en-US" :=
  (news_language_code_amended enTable okOracle
    (newsEnv [("userInput", { value := some "climate" })])).2
    (mkNewsRequest "climate" "en-US") (by decide)

/-- C8: dispatch takes the first matching handler in registration order,
with the intent reflector registered last: a launch envelope is routed to
the launch handler and yields a speak-and-reprompt pair (never the
reflector), while an intent request whose name matches no specific handler
falls through to the reflector and yields the reflection sentence. -/
theorem dispatch_order_scenarios (table : Table) (http : HttpOracle)
    (env : Envelope) :
    (∀ s r, env.requestType = RequestType.launchRequest →
       get_localized_string table env.locale "WELCOME_MESSAGE" [] =
         Except.ok s →
       get_localized_string table env.locale "WELCOME_REPROMPT" [] =
         Except.ok r →
       dispatch skillHandlers table http env =
         (Except.ok (speakAsk s r), []))
  ∧ (∀ i, env.requestType = RequestType.intentRequest → env.intent = some i →
       i.name ≠ "HelloWorldIntent" → i.name ≠ "LanguageCheckIntent" →
       i.name ≠ "NewsRequestIntent" → i.name ≠ "AMAZON.HelpIntent" →
       i.name ≠ "AMAZON.CancelIntent" → i.name ≠ "AMAZON.StopIntent" →
       i.name ≠ "AMAZON.FallbackIntent" →
       dispatch skillHandlers table http env =
         (Except.ok (speakOnly ("You just triggered " ++ i.name ++ ".")),
          [])) := by
  constructor
  · intro s r hrt hw hwr
    have hdisp : dispatch skillHandlers table http env =
        (LaunchRequestHandler.handle table env, []) := by
      simp [dispatch, skillHandlers, simpleHandler, is_request_type, hrt]
    rw [hdisp]
    unfold LaunchRequestHandler.handle
    rw [hw, hwr]
    rfl
  · intro i hrt hint h1 h2 h3 h4 h5 h6 h7
    simp [dispatch, skillHandlers, simpleHandler, is_request_type,
      is_intent_name, IntentReflectorHandler.handle, hrt, hint, h1, h2, h3,
      h4, h5, h6, h7]

/-- Witness for C8: a concrete launch envelope yields the welcome
speak-and-reprompt pair, and a concrete unmatched intent is reflected. -/
theorem dispatch_order_scenarios_witness :
    dispatch skillHandlers enTable okOracle
      { requestType := RequestType.launchRequest
      , intent := none
      , locale := "en-US" } =
      (Except.ok (speakAsk "welcome" "welcome again"), [])
  ∧ dispatch skillHandlers enTable okOracle
      { requestType := RequestType.intentRequest
      , intent := some { name := "SomeIntent", slots := [] }
      , locale := "en-US" } =
      (Except.ok (speakOnly ("You just triggered " ++ "SomeIntent" ++ ".")),
       []) :=
  ⟨(dispatch_order_scenarios enTable okOracle
      { requestType := RequestType.launchRequest
      , intent := none
      , locale := "en-US" }).1 "welcome" "welcome again" rfl rfl rfl,
   (dispatch_order_scenarios enTable okOracle
      { requestType := RequestType.intentRequest
      , intent := some { name := "SomeIntent", slots := [] }
      , locale := "en-US" }).2 { name := "SomeIntent", slots := [] }
      rfl rfl (by decide) (by decide) (by decide) (by decide) (by decide)
      (by decide) (by decide)⟩

/-- C10: whenever the news handler returns normally, its spoken output is
one of the branch messages and never the pre-assigned localized
`NEWS_GENERAL_ERROR` default, provided the branch messages and any 200
response body differ from that default. -/
theorem news_default_never_spoken (table : Table) (http : HttpOracle)
    (env : Envelope) (d a f c : String)
    (hd : get_localized_string table env.locale "NEWS_GENERAL_ERROR" [] =
      Except.ok d)
    (hf : get_localized_string table env.locale "NEWS_TOPIC_NOT_FOUND" [] =
      Except.ok f)
    (hc : get_localized_string table env.locale "NEWS_TOPIC_NOT_CAUGHT" [] =
      Except.ok c)
    (ha : get_localized_string table env.locale "NEWS_API_ERROR" [] =
      Except.ok a)
    (hdf : f ≠ d) (hdc : c ≠ d) (hda : a ≠ d)
    (hbody : ∀ req resp, http req = Except.ok resp →
      resp.status_code = 200 → resp.text ≠ d) :
    ∀ res trace, NewsRequestIntentHandler.handle table http env =
      (Except.ok res, trace) → res.speak ≠ some d := by
  intro res trace h
  obtain ⟨s, rfl, hcase⟩ := newsHandle_ok_speak table http env res trace h
  intro heq
  have hs : s = d := by simpa [speakOnly] using heq
  subst hs
  rcases hcase with hx | hx | hx | ⟨req, resp, hreq, h200, hs2⟩
  · exact hdf (Except.ok.inj (hf.symm.trans hx))
  · exact hdc (Except.ok.inj (hc.symm.trans hx))
  · exact hda (Except.ok.inj (ha.symm.trans hx))
  · exact hbody req resp hreq h200 hs2.symm

/-- Witness for C10: at a concrete envelope and oracle the handler's spoken
output is the 200 body, not the default. -/
theorem news_default_never_spoken_witness :
    (speakOnly "THE BODY").speak ≠ some "general error" :=
  news_default_never_spoken enTable okOracle
    (newsEnv [("userInput", { value := some "climate" })])
    "general error" "api error" "not found" "not caught"
    rfl rfl rfl rfl (by decide) (by decide) (by decide)
    (by
      intro req resp hreq h200
      injection hreq with h2
      rw [← h2]
      decide)
    (speakOnly "THE BODY") [mkNewsRequest "climate" "en-US"] rfl
